import Mathlib

/-!
Verification development for the repository CalendarCaptureExtension,
whose sole source file is jules-scratch/verification/verify_modal.py.
The script brings in asyncio, playwright.async_api.async_playwright and
os, and then reads:

  async def main():
      async with async_playwright() as p:
          browser = await p.chromium.launch()
          page = await browser.new_page()
          modal_path = "file://" + os.path.abspath("modal.html")
          await page.goto(modal_path)
          await page.eval_on_selector("#api-status", "(el) => ...")
          await page.screenshot(path="jules-scratch/verification/modal_final_confirmation.png")
          await browser.close()

  if __name__ == "__main__":
      asyncio.run(main())

We embed the script as a function from an environment (which of the
browser operations succeed, the DOM loaded by the navigation, the
current working directory) and an initial filesystem to a run result:
the ordered trace of operations issued to the browser library, the
final filesystem, and the outcome (success or the propagated error).

Python path semantics (os.path.abspath = normpath(join(getcwd(), p))
for a relative p) are embedded faithfully over lists of characters,
following the CPython posixpath implementations of join and normpath.
-/

namespace VerifyModal

/-- Split a character list on the character "/" exactly as Python
str.split (keeping empty components). -/
def splitSlash : List Char → List (List Char)
  | [] => [[]]
  | c :: rest =>
    let r := splitSlash rest
    if c = '/' then [] :: r
    else
      match r with
      | [] => [[c]]
      | h :: t => (c :: h) :: t

/-- Number of initial slashes that posixpath.normpath preserves: 2 when
the path starts with exactly two slashes (POSIX special case), 1 when it
starts with a slash, otherwise 0. -/
def initialSlashesOf (p : List Char) : Nat :=
  if List.isPrefixOf ['/'] p then
    if List.isPrefixOf ['/', '/'] p ∧ ¬ List.isPrefixOf ['/', '/', '/'] p then 2 else 1
  else 0

/-- The component-processing loop of posixpath.normpath: drop empty and
"." components, resolve ".." against a preceding component where the
Python code does. The argument k is the number of initial slashes. -/
def processComps (k : Nat) (comps : List (List Char)) : List (List Char) :=
  comps.foldl
    (fun acc comp =>
      if comp = [] ∨ comp = ['.'] then acc
      else if comp ≠ ['.', '.'] ∨ (k = 0 ∧ acc = []) ∨ acc.getLast? = some ['.', '.'] then
        acc ++ [comp]
      else if acc ≠ [] then acc.dropLast
      else acc)
    []

/-- Join components with "/" as Python "/".join does. -/
def intercalateSlash : List (List Char) → List Char
  | [] => []
  | [c] => c
  | c :: rest => c ++ '/' :: intercalateSlash rest

/-- The string rebuilt by posixpath.normpath before its final
"or . when empty" step: the preserved initial slashes followed by the
processed components joined with "/". -/
def normpathCore (k : Nat) (p : List Char) : List Char :=
  List.replicate k '/' ++ intercalateSlash (processComps k (splitSlash p))

/-- posixpath.normpath over character lists, following the CPython
implementation line by line. -/
def normpathL (p : List Char) : List Char :=
  if p = [] then ['.']
  else if normpathCore (initialSlashesOf p) p = [] then ['.']
  else normpathCore (initialSlashesOf p) p

/-- posixpath.join of two components: the second replaces the first when
absolute, otherwise it is appended with a separating slash unless the
first is empty or already ends in a slash. -/
def joinL (a b : List Char) : List Char :=
  if List.isPrefixOf ['/'] b then b
  else if a = [] ∨ a.getLast? = some '/' then a ++ b
  else a ++ '/' :: b

/-- posixpath.abspath relative to an explicit current working directory
cwd: join with cwd when the path is not absolute, then normalize. -/
def abspathL (cwd p : List Char) : List Char :=
  if List.isPrefixOf ['/'] p then normpathL p else normpathL (joinL cwd p)

/-- String wrapper for abspathL: the embedding of os.path.abspath(rel)
run in the directory cwd. -/
def os_path_abspath (cwd rel : String) : String :=
  ⟨abspathL cwd.data rel.data⟩

/-- The url computed at line 11 of the script:
"file://" + os.path.abspath("modal.html"), with cwd made explicit. -/
def modal_path (cwd : String) : String :=
  "file://" ++ os_path_abspath cwd ("modal.html")

/-- The error taxonomy of the specification: launch, navigation,
timeout, missing selector and screenshot-write failures. -/
inductive Err where
  | launchFailure
  | navigationFailure
  | timeoutError
  | selectorNotFound
  | fileWriteError
deriving DecidableEq

/-- The page DOM as far as the script observes it: the textContent of
the (first) element matching the CSS selector "#api-status", or none
when no element matches. -/
structure Dom where
  apiStatus : Option String
deriving DecidableEq

/-- A captured screenshot: the page state it rendered and whether the
capture was requested as a full-page capture (the playwright full_page
option; its documented default is false, viewport only). -/
structure Screenshot where
  page : Dom
  fullPage : Bool
deriving DecidableEq

/-- One operation issued to the browser-automation library, in the order
the script awaits them. playwrightStop is the exit of the
async_playwright context manager, which terminates the driver process
(and with it any browser it launched). -/
inductive Event where
  | launch
  | newPage
  | goto (url : String)
  | evalOnSelector (selector : String)
  | screenshot (path : String) (fullPage : Bool)
  | browserClose
  | playwrightStop
deriving DecidableEq

/-- The filesystem as far as the script writes it: a mapping from paths
to screenshot files, as an association list. -/
abbrev FS := List (String × Screenshot)

/-- Write a file, creating it if absent and overwriting any existing
entry at the same path. -/
def fsWrite (fs : FS) (p : String) (s : Screenshot) : FS :=
  (p, s) :: fs.filter (fun e => e.1 != p)

/-- Read a file back, if present. -/
def fsRead (fs : FS) (p : String) : Option Screenshot :=
  (fs.find? (fun e => e.1 == p)).map Prod.snd

/-- The environment of one run: the current working directory and the
behavior of the external collaborators (whether the browser launches,
whether the navigation succeeds, the DOM that modal.html loads to, and
whether the screenshot write succeeds). -/
structure Env where
  cwd : String
  launchOk : Bool
  gotoErr : Option Err
  initialDom : Dom
  screenshotErr : Option Err
deriving DecidableEq

/-- The result of one run of the script: the trace of operations issued,
the final filesystem, and the outcome (none on success, the propagated
error otherwise). -/
structure RunResult where
  trace : List Event
  fs : FS
  outcome : Option Err
deriving DecidableEq

/-- The CSS selector hard-coded at line 15 of the script. -/
def statusSelector : String := "#api-status"

/-- The literal text the in-page script assigns to the element. -/
def statusText : String := "OCRing with gpt-4o..."

/-- The fixed relative output path of the screenshot (line 19). -/
def screenshotPath : String := "jules-scratch/verification/modal_final_confirmation.png"

/-- The body of main inside the async_playwright context: each await is
issued in order; the first failure skips every later statement of the
body, including the browser.close() call at line 21, which is not
protected by any try/finally. On success the screenshot records the
page state at capture time with the library default full_page = false
(the call at line 19 passes only path). -/
def runBody (env : Env) (fs0 : FS) : RunResult :=
  if env.launchOk = false then
    { trace := [.launch], fs := fs0, outcome := some .launchFailure }
  else
    let url := modal_path env.cwd
    match env.gotoErr with
    | some e => { trace := [.launch, .newPage, .goto url], fs := fs0, outcome := some e }
    | none =>
      match env.initialDom.apiStatus with
      | none =>
        { trace := [.launch, .newPage, .goto url, .evalOnSelector statusSelector],
          fs := fs0, outcome := some .selectorNotFound }
      | some _ =>
        match env.screenshotErr with
        | some e =>
          { trace := [.launch, .newPage, .goto url, .evalOnSelector statusSelector,
                      .screenshot screenshotPath false],
            fs := fs0, outcome := some e }
        | none =>
          { trace := [.launch, .newPage, .goto url, .evalOnSelector statusSelector,
                      .screenshot screenshotPath false, .browserClose],
            fs := fsWrite fs0 screenshotPath
                    { page := { apiStatus := some statusText }, fullPage := false },
            outcome := none }

/-- One run of main: the async with async_playwright() context executes
its body and then, on every exit path (success or propagated error),
runs the context exit, which stops the playwright driver. -/
def run (env : Env) (fs0 : FS) : RunResult :=
  let b := runBody env fs0
  { b with trace := b.trace ++ [.playwrightStop] }

/-- The process exit status of python3 verify_modal.py: zero when
asyncio.run(main()) returns, nonzero when an unhandled exception
propagates to the top level. -/
def exitCode (env : Env) (fs0 : FS) : Nat :=
  match (run env fs0).outcome with
  | none => 0
  | some _ => 1

/-- Executing the module top level with a given value of the Python
variable holding the module name: the only guarded statement is
asyncio.run(main()), executed exactly when that value is "__main__";
importing the module binds the definitions and does nothing else. -/
def moduleTopLevel (dunderName : String) (env : Env) (fs0 : FS) : RunResult :=
  if dunderName = "__main__" then run env fs0
  else { trace := [], fs := fs0, outcome := none }

/-- Does a trace contain any screenshot operation at all? -/
def issuesScreenshot (t : List Event) : Bool :=
  t.any fun e =>
    match e with
    | .screenshot _ _ => true
    | _ => false

/-- The six browser operations of a fully successful run, in source
order; every run issues a prefix of this list and then the context
exit. -/
def canonicalOps (cwd : String) : List Event :=
  [.launch, .newPage, .goto (modal_path cwd), .evalOnSelector statusSelector,
   .screenshot screenshotPath false, .browserClose]

/-- Specification-side description of the outcome: the error of the
first failing step, unmodified, and none when every step succeeds. -/
def specFirstFailure (env : Env) : Option Err :=
  if env.launchOk = false then some .launchFailure
  else
    match env.gotoErr with
    | some e => some e
    | none =>
      match env.initialDom.apiStatus with
      | none => some .selectorNotFound
      | some _ => env.screenshotErr

/-- The status text the page carries at capture time, read back from the
screenshot stored at the fixed output path: none when no file is there,
some of the captured textContent of the element otherwise. -/
def capturedStatus (r : RunResult) : Option (Option String) :=
  (fsRead r.fs screenshotPath).map Screenshot.page |>.map Dom.apiStatus

/-- An environment whose navigation fails. -/
def envC1 : Env :=
  { cwd := "/w", launchOk := true, gotoErr := some .navigationFailure,
    initialDom := { apiStatus := some ("Connecting") }, screenshotErr := none }

/-- An environment in which every step succeeds. -/
def envC2 : Env :=
  { cwd := "/w", launchOk := true, gotoErr := none,
    initialDom := { apiStatus := some ("Ready") }, screenshotErr := none }

/-- An environment whose loaded page has no element matching the
selector. -/
def envC3 : Env :=
  { cwd := "/w", launchOk := true, gotoErr := none,
    initialDom := { apiStatus := none }, screenshotErr := none }

/-- A fully successful environment with a different prior status text. -/
def envC4 : Env :=
  { cwd := "/home/u", launchOk := true, gotoErr := none,
    initialDom := { apiStatus := some ("old text") }, screenshotErr := none }

/-- An environment that launches and navigates but cannot persist the
screenshot. -/
def envC6 : Env :=
  { cwd := "/srv", launchOk := true, gotoErr := none,
    initialDom := { apiStatus := some ("x") }, screenshotErr := some .fileWriteError }

/-- A fully successful environment for the re-run experiment. -/
def envC8 : Env :=
  { cwd := "/w", launchOk := true, gotoErr := none,
    initialDom := { apiStatus := some ("Ready") }, screenshotErr := none }

/-- A fully successful environment paired with a non-main module name. -/
def envC10 : Env :=
  { cwd := "/w", launchOk := true, gotoErr := none,
    initialDom := { apiStatus := some ("Ready") }, screenshotErr := none }

/-- A block of at least one initial slash keeps the head of the rebuilt
path equal to the slash character. -/
theorem head_replicate_slash_append (k : Nat) (x : List Char) (hk : 1 ≤ k) :
    (List.replicate k '/' ++ x).head? = some '/' := by
  cases k with
  | zero => omega
  | succ n => rfl

/-- A path starting with a slash keeps at least one initial slash under
normalization. -/
theorem one_le_initialSlashesOf (t : List Char) : 1 ≤ initialSlashesOf ('/' :: t) := by
  have hp : List.isPrefixOf ['/'] ('/' :: t) = true := by
    simp [List.isPrefixOf]
  unfold initialSlashesOf
  rw [if_pos hp]
  split <;> omega

/-- The rebuilt path of a slash-headed input is nonempty and starts with
a slash. -/
theorem head_normpathCore (k : Nat) (p : List Char) (hk : 1 ≤ k) :
    (normpathCore k p).head? = some '/' :=
  head_replicate_slash_append k _ hk

/-- normpathL preserves a leading slash. -/
theorem head_normpathL (p : List Char) (h : p.head? = some '/') :
    (normpathL p).head? = some '/' := by
  cases p with
  | nil => simp at h
  | cons a t =>
    have ha : a = '/' := by simpa using h
    subst ha
    have hk := one_le_initialSlashesOf t
    have hcore := head_normpathCore (initialSlashesOf ('/' :: t)) ('/' :: t) hk
    have hne : normpathCore (initialSlashesOf ('/' :: t)) ('/' :: t) ≠ [] := by
      intro he
      rw [he] at hcore
      simp at hcore
    simp only [normpathL]
    rw [if_neg (by simp), if_neg hne]
    exact hcore

/-- posixpath.join preserves a leading slash of the base when the joined
component is relative. -/
theorem head_joinL (a b : List Char) (ha : a.head? = some '/')
    (hb : List.isPrefixOf ['/'] b = false) : (joinL a b).head? = some '/' := by
  cases a with
  | nil => simp at ha
  | cons x t =>
    have hx : x = '/' := by simpa using ha
    subst hx
    simp only [joinL]
    rw [if_neg (by simp [hb])]
    split <;> rfl

/-- The absolute path of modal.html computed from a slash-headed cwd
starts with a slash. -/
theorem head_abspath_modal (cwd : String) (h : cwd.data.head? = some '/') :
    (os_path_abspath cwd ("modal.html")).data.head? = some '/' := by
  show (abspathL cwd.data (("modal.html").data)).head? = some '/'
  simp only [abspathL]
  rw [if_neg (by decide)]
  exact head_normpathL _ (head_joinL _ _ h (by decide))

/-- C9. For every current working directory on a POSIX filesystem (an
absolute directory path, starting with a slash), the navigation URL is
the literal "file://" concatenated with an absolute path starting with a
slash, so it begins with the well-formed prefix "file:///"; the script
performs no validation or escaping of the path. -/
theorem navigation_url_file_scheme_prefix (cwd : String) (h : cwd.data.head? = some '/') :
    List.IsPrefix (("file:///").data) ((modal_path cwd).data) := by
  have h1 := head_abspath_modal cwd h
  obtain ⟨t, ht⟩ : ∃ t, (os_path_abspath cwd ("modal.html")).data = '/' :: t := by
    cases hc : (os_path_abspath cwd ("modal.html")).data with
    | nil => rw [hc] at h1; simp at h1
    | cons x xs =>
      rw [hc] at h1
      simp only [List.head?] at h1
      exact ⟨xs, by rw [Option.some_inj] at h1; rw [h1]⟩
  refine ⟨t, ?_⟩
  have hdata : (modal_path cwd).data
      = ("file://").data ++ (os_path_abspath cwd ("modal.html")).data := rfl
  rw [hdata, ht, List.append_cons]
  have hfs : ("file://").data ++ ['/'] = ("file:///").data := by decide
  rw [hfs]

/-- Witness for C9 at the concrete working directory /home/user. -/
theorem navigation_url_file_scheme_prefix_w :
    ("/home/user").data.head? = some '/' ∧
    List.IsPrefix (("file:///").data) ((modal_path ("/home/user")).data) :=
  ⟨by decide, navigation_url_file_scheme_prefix ("/home/user") (by decide)⟩

/-- C1, counterexample. A run whose navigation fails terminates with a
navigation error, yet the session-release operation browser.close()
never occurs in its trace: the claim that the session release occurs on
every exit path is false of the code, because line 21 of the script is
not protected by any try/finally. -/
theorem browserClose_skipped_on_goto_failure :
    (run envC1 []).outcome = some Err.navigationFailure ∧
    Event.browserClose ∉ (run envC1 []).trace := by decide

/-- C1, amended. The explicit browser-close call occurs exactly on fully
successful runs; what is guaranteed on every exit path, including any
failure of navigation, mutation, or screenshot, is the exit of the
async_playwright context, which stops the driver process (and with it
the launched browser), so no process is leaked. -/
theorem session_release_on_exit_paths (env : Env) (fs0 : FS) :
    Event.playwrightStop ∈ (run env fs0).trace ∧
    (Event.browserClose ∈ (run env fs0).trace ↔ (run env fs0).outcome = none) := by
  obtain ⟨cwd, lOk, gErr, ⟨apiS⟩, sErr⟩ := env
  cases lOk <;> cases gErr <;> cases apiS <;> cases sErr <;>
    simp [run, runBody]

/-- C2, counterexample. A fully successful run issues the screenshot
with the playwright full_page option at its default, false: the trace
holds no full-page capture, only a viewport capture, so the claim that
the captured screenshot is of the full page is false of the code (line
19 passes only path). -/
theorem screenshot_not_full_page :
    (run envC2 []).outcome = none ∧
    Event.screenshot screenshotPath true ∉ (run envC2 []).trace ∧
    Event.screenshot screenshotPath false ∈ (run envC2 []).trace := by decide

/-- C2, amended. On every successful run the screenshot operation is
issued with full_page = false (the library default, viewport only) at
the fixed relative output path, and the file at that path is created or
overwritten with the captured page state. -/
theorem screenshot_viewport_fixed_path_overwrite (env : Env) (fs0 : FS)
    (h : (run env fs0).outcome = none) :
    Event.screenshot screenshotPath false ∈ (run env fs0).trace ∧
    fsRead (run env fs0).fs screenshotPath =
      some { page := { apiStatus := some statusText }, fullPage := false } := by
  obtain ⟨cwd, lOk, gErr, ⟨apiS⟩, sErr⟩ := env
  cases lOk <;> cases gErr <;> cases apiS <;> cases sErr <;>
    simp_all [run, runBody, fsRead, fsWrite]

/-- Verifies C2 amended at a concrete fully successful run. -/
theorem screenshot_viewport_fixed_path_overwrite_w :
    (run envC2 []).outcome = none ∧
    (Event.screenshot screenshotPath false ∈ (run envC2 []).trace ∧
      fsRead (run envC2 []).fs screenshotPath =
        some { page := { apiStatus := some statusText }, fullPage := false }) :=
  ⟨by decide, screenshot_viewport_fixed_path_overwrite envC2 [] (by decide)⟩

/-- C3. When launch and navigation succeed but the loaded page has no
element matching the selector, the run aborts with the
selector-not-found error, the filesystem is untouched, and no screenshot
operation of any kind is ever issued. -/
theorem selector_missing_aborts_without_screenshot (env : Env) (fs0 : FS)
    (hl : env.launchOk = true) (hg : env.gotoErr = none)
    (hd : env.initialDom.apiStatus = none) :
    (run env fs0).outcome = some Err.selectorNotFound ∧
    (run env fs0).fs = fs0 ∧
    issuesScreenshot (run env fs0).trace = false := by
  obtain ⟨cwd, lOk, gErr, ⟨apiS⟩, sErr⟩ := env
  cases lOk <;> cases gErr <;> cases apiS <;> cases sErr <;>
    simp_all [run, runBody, issuesScreenshot]

/-- Verifies C3 at a concrete environment whose page lacks the
element. -/
theorem selector_missing_aborts_without_screenshot_w :
    (run envC3 []).outcome = some Err.selectorNotFound ∧
    (run envC3 []).fs = [] ∧
    issuesScreenshot (run envC3 []).trace = false :=
  selector_missing_aborts_without_screenshot envC3 [] rfl rfl rfl

/-- C4. On every successful run, whatever text the element held before,
the screenshot stored at the fixed output path records the element text
as exactly the literal string assigned by the in-page script. -/
theorem captured_status_text_eq_literal (env : Env) (fs0 : FS)
    (h : (run env fs0).outcome = none) :
    capturedStatus (run env fs0) = some (some statusText) := by
  obtain ⟨cwd, lOk, gErr, ⟨apiS⟩, sErr⟩ := env
  cases lOk <;> cases gErr <;> cases apiS <;> cases sErr <;>
    simp_all [run, runBody, capturedStatus, fsRead, fsWrite]

/-- Verifies C4 at a concrete run whose element initially holds a
different text. -/
theorem captured_status_text_eq_literal_w :
    (run envC4 []).outcome = none ∧
    capturedStatus (run envC4 []) = some (some statusText) :=
  ⟨by decide, captured_status_text_eq_literal envC4 [] (by decide)⟩

/-- C5. Every run issues the browser operations strictly one after
another in the fixed source order: its trace is a prefix of the
canonical operation sequence (launch, new page, navigation, in-page
mutation, screenshot, close) followed by the context exit, so navigation
completes before the mutation is issued and the mutation is issued
before the screenshot; in this sequential embedding exactly one
operation is in flight at a time. -/
theorem operations_strictly_sequenced (env : Env) (fs0 : FS) :
    ∃ k, (run env fs0).trace = (canonicalOps env.cwd).take k ++ [Event.playwrightStop] := by
  obtain ⟨cwd, lOk, gErr, ⟨apiS⟩, sErr⟩ := env
  cases lOk <;> cases gErr <;> cases apiS <;> cases sErr <;>
    first
      | exact ⟨1, rfl⟩
      | exact ⟨3, rfl⟩
      | exact ⟨4, rfl⟩
      | exact ⟨5, rfl⟩
      | exact ⟨6, rfl⟩

/-- C6. Whenever the browser launches, the page is instructed to
navigate to exactly the file-scheme URL obtained by prefixing "file://"
to the absolute path of the fixed filename modal.html resolved against
the current working directory. -/
theorem navigation_targets_abspath_file_url (env : Env) (fs0 : FS)
    (h : env.launchOk = true) :
    Event.goto ("file://" ++ os_path_abspath env.cwd ("modal.html")) ∈ (run env fs0).trace := by
  obtain ⟨cwd, lOk, gErr, ⟨apiS⟩, sErr⟩ := env
  cases lOk <;> cases gErr <;> cases apiS <;> cases sErr <;>
    simp_all [run, runBody, modal_path]

/-- Verifies C6 at a concrete environment. -/
theorem navigation_targets_abspath_file_url_w :
    envC6.launchOk = true ∧
    Event.goto ("file://" ++ os_path_abspath envC6.cwd ("modal.html")) ∈ (run envC6 []).trace :=
  ⟨rfl, navigation_targets_abspath_file_url envC6 [] rfl⟩

/-- C7. No failure of any step is caught or recovered anywhere: the
outcome of every run is exactly the error of the first failing step,
unmodified, and the process exit status is zero precisely when every
step succeeded (nonzero otherwise). -/
theorem failures_propagate_exit_status (env : Env) (fs0 : FS) :
    (run env fs0).outcome = specFirstFailure env ∧
    (exitCode env fs0 = 0 ↔ specFirstFailure env = none) := by
  obtain ⟨cwd, lOk, gErr, ⟨apiS⟩, sErr⟩ := env
  cases lOk <;> cases gErr <;> cases apiS <;> cases sErr <;>
    simp [run, runBody, exitCode, specFirstFailure]

/-- C8. After a successful run, running the script again in the same
environment succeeds as well — the presence of the previously written
file never causes a failure — and overwrites the file at the fixed
output path, which the first run had produced. -/
theorem second_run_succeeds_and_overwrites (env : Env) (fs0 : FS)
    (h : (run env fs0).outcome = none) :
    (run env (run env fs0).fs).outcome = none ∧
    fsRead (run env (run env fs0).fs).fs screenshotPath =
      fsRead (run env fs0).fs screenshotPath ∧
    fsRead (run env fs0).fs screenshotPath ≠ none := by
  obtain ⟨cwd, lOk, gErr, ⟨apiS⟩, sErr⟩ := env
  cases lOk <;> cases gErr <;> cases apiS <;> cases sErr <;>
    simp_all [run, runBody, fsRead, fsWrite]

/-- Verifies C8 by running twice from an empty filesystem. -/
theorem second_run_succeeds_and_overwrites_w :
    (run envC8 []).outcome = none ∧
    ((run envC8 (run envC8 []).fs).outcome = none ∧
      fsRead (run envC8 (run envC8 []).fs).fs screenshotPath =
        fsRead (run envC8 []).fs screenshotPath ∧
      fsRead (run envC8 []).fs screenshotPath ≠ none) :=
  ⟨by decide, second_run_succeeds_and_overwrites envC8 [] (by decide)⟩

/-- C10. Executing the module top level under any module name other
than "__main__" — that is, importing it rather than running it as the
main program — issues no browser operation, leaves the filesystem
unchanged, and raises no failure. -/
theorem module_import_is_pure (dunderName : String) (env : Env) (fs0 : FS)
    (h : dunderName ≠ "__main__") :
    (moduleTopLevel dunderName env fs0).trace = [] ∧
    (moduleTopLevel dunderName env fs0).fs = fs0 ∧
    (moduleTopLevel dunderName env fs0).outcome = none := by
  simp [moduleTopLevel, h]

/-- Verifies C10 at the module name the file receives when imported. -/
theorem module_import_is_pure_w :
    (("verify_modal" : String) ≠ "__main__") ∧
    ((moduleTopLevel ("verify_modal") envC10 []).trace = [] ∧
      (moduleTopLevel ("verify_modal") envC10 []).fs = [] ∧
      (moduleTopLevel ("verify_modal") envC10 []).outcome = none) :=
  ⟨by decide, module_import_is_pure ("verify_modal") envC10 [] (by decide)⟩

end VerifyModal
